import Mathlib

/-!
Verification of the working-hours-aware conversation-summary pipeline.

The development shallowly embeds the BigQuery UDF
`calculate_working_seconds_sql` (src/working_hours_sql_udf_simple.sql),
the JavaScript schedule resolvers `getWorkingHoursConfig` and
`getAllWorkingHoursConfig` (src/unnamed/part_000, src/README.md),
the response-pair segmentation used by the merge queries
(`LAG`-based `response_events`) and by the JavaScript
`calculateResponseTimes` backward scan (src/README.md), and the
average-response-time aggregation of `conversation_summary_merge.sql`
and `conversation_summary_merge_FIXED.sql`.

Timestamps are modelled as whole seconds since the Unix epoch
(1970-01-01 00:00:00 UTC, a Thursday); `TIME` values as seconds after
midnight; BigQuery `EXTRACT(DAYOFWEEK ...)` as 1 = Sunday .. 7 = Saturday.
-/

namespace ConvSummary

/-- Number of seconds in a civil day. -/
def secondsPerDay : Nat := 86400

/-- Civil day index in UTC of an epoch-seconds timestamp (the SQL `DATE(ts)`). -/
def civilDay (t : Nat) : Nat := t / secondsPerDay

/-- Time of day in seconds after midnight (the SQL `TIME(ts)` value, UTC). -/
def timeOfDay (t : Nat) : Nat := t % secondsPerDay

/-- BigQuery day-of-week number of a civil day index: 1 = Sunday .. 7 = Saturday.
Day 0 (1970-01-01) was a Thursday, i.e. 5. -/
def dayOfWeekOfDay (d : Nat) : Nat := (d + 4) % 7 + 1

/-- BigQuery `EXTRACT(DAYOFWEEK FROM ts)` in UTC. -/
def dayOfWeek (t : Nat) : Nat := dayOfWeekOfDay (civilDay t)

/-- The fourteen `TIME` parameters of the UDF; `none` models SQL `NULL`. -/
structure Schedule where
  monday_start : Option Nat
  monday_end : Option Nat
  tuesday_start : Option Nat
  tuesday_end : Option Nat
  wednesday_start : Option Nat
  wednesday_end : Option Nat
  thursday_start : Option Nat
  thursday_end : Option Nat
  friday_start : Option Nat
  friday_end : Option Nat
  saturday_start : Option Nat
  saturday_end : Option Nat
  sunday_start : Option Nat
  sunday_end : Option Nat
  deriving DecidableEq

/-- The inner `CASE` of each weekday branch of the UDF: zero when the
interval starts before or ends after the day's working hours, otherwise
the full `TIMESTAMP_DIFF(end, start, SECOND)`. -/
def dayCase (start_timestamp end_timestamp : Nat) (day_start day_end : Option Nat) : Int :=
  if timeOfDay start_timestamp < day_start.getD 0 ∨ timeOfDay end_timestamp > day_end.getD 0 then
    0
  else
    (end_timestamp : Int) - (start_timestamp : Int)

/-- Embedding of `calculate_working_seconds_sql` from
src/working_hours_sql_udf_simple.sql (the UTC variant with the
`TIME(0,0,0)` closed-day guard): zero when `start >= end`; on a same-day
interval, the weekday `CASE` chain; on a cross-day interval, zero. -/
def calculate_working_seconds_sql (start_timestamp end_timestamp : Nat) (s : Schedule) : Int :=
  if start_timestamp ≥ end_timestamp then 0
  else
    if civilDay start_timestamp = civilDay end_timestamp then
      if dayOfWeek start_timestamp = 2 ∧ s.monday_start ≠ none ∧ s.monday_end ≠ none ∧
          ¬(s.monday_start = some 0 ∧ s.monday_end = some 0) then
        dayCase start_timestamp end_timestamp s.monday_start s.monday_end
      else if dayOfWeek start_timestamp = 3 ∧ s.tuesday_start ≠ none ∧ s.tuesday_end ≠ none ∧
          ¬(s.tuesday_start = some 0 ∧ s.tuesday_end = some 0) then
        dayCase start_timestamp end_timestamp s.tuesday_start s.tuesday_end
      else if dayOfWeek start_timestamp = 4 ∧ s.wednesday_start ≠ none ∧ s.wednesday_end ≠ none ∧
          ¬(s.wednesday_start = some 0 ∧ s.wednesday_end = some 0) then
        dayCase start_timestamp end_timestamp s.wednesday_start s.wednesday_end
      else if dayOfWeek start_timestamp = 5 ∧ s.thursday_start ≠ none ∧ s.thursday_end ≠ none ∧
          ¬(s.thursday_start = some 0 ∧ s.thursday_end = some 0) then
        dayCase start_timestamp end_timestamp s.thursday_start s.thursday_end
      else if dayOfWeek start_timestamp = 6 ∧ s.friday_start ≠ none ∧ s.friday_end ≠ none ∧
          ¬(s.friday_start = some 0 ∧ s.friday_end = some 0) then
        dayCase start_timestamp end_timestamp s.friday_start s.friday_end
      else if dayOfWeek start_timestamp = 7 ∧ s.saturday_start ≠ none ∧ s.saturday_end ≠ none ∧
          ¬(s.saturday_start = some 0 ∧ s.saturday_end = some 0) then
        dayCase start_timestamp end_timestamp s.saturday_start s.saturday_end
      else if dayOfWeek start_timestamp = 1 ∧ s.sunday_start ≠ none ∧ s.sunday_end ≠ none ∧
          ¬(s.sunday_start = some 0 ∧ s.sunday_end = some 0) then
        dayCase start_timestamp end_timestamp s.sunday_start s.sunday_end
      else 0
    else 0

/-- Schedule open Monday to Friday 09:00-18:00 UTC, Saturday and Sunday
closed (both times `00:00:00`, as the merge queries pass via `COALESCE`). -/
def monFriSchedule : Schedule :=
  { monday_start := some 32400, monday_end := some 64800
    tuesday_start := some 32400, tuesday_end := some 64800
    wednesday_start := some 32400, wednesday_end := some 64800
    thursday_start := some 32400, thursday_end := some 64800
    friday_start := some 32400, friday_end := some 64800
    saturday_start := some 0, saturday_end := some 0
    sunday_start := some 0, sunday_end := some 0 }

/-- Schedule with `start = end = 00:00:00` on every weekday. -/
def closedSchedule : Schedule :=
  { monday_start := some 0, monday_end := some 0
    tuesday_start := some 0, tuesday_end := some 0
    wednesday_start := some 0, wednesday_end := some 0
    thursday_start := some 0, thursday_end := some 0
    friday_start := some 0, friday_end := some 0
    saturday_start := some 0, saturday_end := some 0
    sunday_start := some 0, sunday_end := some 0 }

/-- A weekday branch of the UDF returns either 0 or the full span. -/
theorem dayCase_cases (t0 t1 : Nat) (ds de : Option Nat) :
    dayCase t0 t1 ds de = 0 ∨ dayCase t0 t1 ds de = (t1 : Int) - (t0 : Int) := by
  unfold dayCase
  split
  · exact Or.inl rfl
  · exact Or.inr rfl

set_option maxHeartbeats 1000000 in
/-- Helper used across the claims: every run of the UDF returns either 0 or, on an increasing interval,
the full raw span in seconds. -/
theorem calculate_working_seconds_sql_cases (s : Schedule) (t0 t1 : Nat) :
    calculate_working_seconds_sql t0 t1 s = 0 ∨
      (t0 < t1 ∧ calculate_working_seconds_sql t0 t1 s = (t1 : Int) - (t0 : Int)) := by
  unfold calculate_working_seconds_sql
  split_ifs
  all_goals
    first
      | exact Or.inl rfl
      | (rcases dayCase_cases t0 t1 _ _ with h | h
         · exact Or.inl h
         · exact Or.inr ⟨by omega, h⟩)

/-- Helper: the UDF value is never negative. -/
theorem calculate_working_seconds_sql_nonneg (s : Schedule) (t0 t1 : Nat) :
    0 ≤ calculate_working_seconds_sql t0 t1 s := by
  rcases calculate_working_seconds_sql_cases s t0 t1 with h | ⟨hlt, h⟩ <;> rw [h] <;> omega

/-- Working window that the UDF parameters assign to a BigQuery weekday
number (the CASE chain dispatches weekday 2 to the monday pair, 3 to the
tuesday pair, ..., 1 to the sunday pair). -/
def windowFor (s : Schedule) (dow : Nat) : Option Nat × Option Nat :=
  if dow = 2 then (s.monday_start, s.monday_end)
  else if dow = 3 then (s.tuesday_start, s.tuesday_end)
  else if dow = 4 then (s.wednesday_start, s.wednesday_end)
  else if dow = 5 then (s.thursday_start, s.thursday_end)
  else if dow = 6 then (s.friday_start, s.friday_end)
  else if dow = 7 then (s.saturday_start, s.saturday_end)
  else if dow = 1 then (s.sunday_start, s.sunday_end)
  else (none, none)

/-- Modelled from the spec: length of the intersection of a time-of-day
interval `[a, b)` with a day's half-open working window; an absent day or
a `00:00:00`-`00:00:00` day is closed and contributes zero. -/
def windowClip (a b : Nat) : Option Nat × Option Nat → Nat
  | (some ws, some we) => if ws = 0 ∧ we = 0 then 0 else min b we - max a ws
  | _ => 0

/-- Modelled from the spec: the reference day-walk algorithm for
`working_seconds` (not present in the SQL sources, whose cross-day branch
returns 0): on a same-day interval, intersect with that day's window;
otherwise walk civil days from `day(t0)` through `day(t1)`, taking the
partial window on the first and last day and the full window on every
intermediate day. -/
def working_seconds_spec (t0 t1 : Nat) (s : Schedule) : Nat :=
  if t0 ≥ t1 then 0
  else if civilDay t0 = civilDay t1 then
    windowClip (timeOfDay t0) (timeOfDay t1) (windowFor s (dayOfWeek t0))
  else
    windowClip (timeOfDay t0) secondsPerDay (windowFor s (dayOfWeek t0))
      + ((List.range (civilDay t1 - civilDay t0 - 1)).map
          (fun k => windowClip 0 secondsPerDay
            (windowFor s (dayOfWeekOfDay (civilDay t0 + 1 + k))))).sum
      + windowClip 0 (timeOfDay t1) (windowFor s (dayOfWeek t1))

/-- C1: the spec expects one working hour (3600 s) for the interval from
Saturday 10:00 UTC (epoch second 208800, 1970-01-03) to the following
Monday 10:00 UTC (epoch second 381600, 1970-01-05) under the schedule
open Mon-Fri 09:00-18:00 with the weekend closed, as the day-walk
reference algorithm computes; the UDF's cross-day branch instead returns
0 for this input. -/
theorem c1_cross_day_returns_zero_not_walk :
    calculate_working_seconds_sql 208800 381600 monFriSchedule = 0 ∧
      working_seconds_spec 208800 381600 monFriSchedule = 3600 := by
  constructor <;> rfl

/-- C2: monotonicity in the right endpoint fails for the UDF: with the
Mon-Fri 09:00-18:00 schedule, the interval Monday 10:00 to 11:00 yields
3600 s, but extending the right endpoint to Monday 19:00 (same day,
past the end of the window) yields 0. -/
theorem c2_not_monotone_in_right_endpoint :
    calculate_working_seconds_sql 381600 385200 monFriSchedule = 3600 ∧
      calculate_working_seconds_sql 381600 414000 monFriSchedule = 0 ∧
      ¬(calculate_working_seconds_sql 381600 385200 monFriSchedule ≤
          calculate_working_seconds_sql 381600 414000 monFriSchedule) := by
  refine ⟨rfl, rfl, ?_⟩
  decide

/-- C7: under the schedule that assigns `start = end = 00:00:00` to every
weekday, the UDF returns 0 for every pair of timestamps. -/
theorem c7_all_closed_schedule_yields_zero (t0 t1 : Nat) :
    calculate_working_seconds_sql t0 t1 closedSchedule = 0 := by
  simp [calculate_working_seconds_sql, closedSchedule]

/-- C8: the UDF result is never negative, and on an ordered interval it
never exceeds the raw elapsed seconds `t1 - t0`. -/
theorem c8_bounded (s : Schedule) (t0 t1 : Nat) :
    0 ≤ calculate_working_seconds_sql t0 t1 s ∧
      (t0 ≤ t1 → calculate_working_seconds_sql t0 t1 s ≤ (t1 : Int) - (t0 : Int)) := by
  rcases calculate_working_seconds_sql_cases s t0 t1 with h | ⟨hlt, h⟩
  · rw [h]
    exact ⟨le_refl 0, fun hle => by omega⟩
  · rw [h]
    exact ⟨by omega, fun _ => le_refl _⟩

/-- Witness for C8 at Monday 10:00 to 11:00 under the Mon-Fri schedule. -/
theorem c8_bounded_witness :
    0 ≤ calculate_working_seconds_sql 381600 385200 monFriSchedule ∧
      calculate_working_seconds_sql 381600 385200 monFriSchedule ≤
        (385200 : Int) - (381600 : Int) :=
  ⟨(c8_bounded monFriSchedule 381600 385200).1,
    (c8_bounded monFriSchedule 381600 385200).2 (by decide)⟩

/-- C10: on a strictly increasing interval, the UDF returns either
exactly 0 or exactly the full raw span; it never returns a strictly
intermediate clipped value. -/
theorem c10_all_or_nothing (s : Schedule) (t0 t1 : Nat) (h : t0 < t1) :
    calculate_working_seconds_sql t0 t1 s = 0 ∨
      calculate_working_seconds_sql t0 t1 s = (t1 : Int) - (t0 : Int) :=
  (calculate_working_seconds_sql_cases s t0 t1).imp id And.right

/-- Witness for C10 at Monday 10:00 to 11:00 under the Mon-Fri schedule. -/
theorem c10_all_or_nothing_witness :
    calculate_working_seconds_sql 381600 385200 monFriSchedule = 0 ∨
      calculate_working_seconds_sql 381600 385200 monFriSchedule =
        (385200 : Int) - (381600 : Int) :=
  c10_all_or_nothing monFriSchedule 381600 385200 (by decide)

/-! ### Schedule resolver (bigQueryService.getWorkingHoursConfig and
getAllWorkingHoursConfig) -/

/-- The `type` column of a `working_hours` row. -/
inductive Scope where
  | self
  | team
  | org
  deriving DecidableEq

/-- A `working_hours` row as the JavaScript resolvers see it; `none`
models an absent field (the built-in default rows carry no `type` or
`type_id`). -/
structure WhEntry where
  type : Option Scope
  type_id : Option Nat
  week_day : String
  start_time : String
  end_time : String
  deriving DecidableEq

/-- A row of the user-mapping table: `(user_id, org_id, team_id)`. -/
structure UserMapping where
  user_id : Nat
  org_id : Nat
  team_id : Nat
  deriving DecidableEq

/-- The built-in default working hours, 09:00-18:00 every day. -/
def defaultWorkingHours : List WhEntry :=
  [ { type := none, type_id := none, week_day := "monday",
      start_time := "09:00:00", end_time := "18:00:00" },
    { type := none, type_id := none, week_day := "tuesday",
      start_time := "09:00:00", end_time := "18:00:00" },
    { type := none, type_id := none, week_day := "wednesday",
      start_time := "09:00:00", end_time := "18:00:00" },
    { type := none, type_id := none, week_day := "thursday",
      start_time := "09:00:00", end_time := "18:00:00" },
    { type := none, type_id := none, week_day := "friday",
      start_time := "09:00:00", end_time := "18:00:00" },
    { type := none, type_id := none, week_day := "saturday",
      start_time := "09:00:00", end_time := "18:00:00" },
    { type := none, type_id := none, week_day := "sunday",
      start_time := "09:00:00", end_time := "18:00:00" } ]

/-- The filter `wh => wh.type === 'self' && wh.type_id === parseInt(id)`. -/
def selfHoursFor (id : Nat) (l : List WhEntry) : List WhEntry :=
  l.filter (fun wh => decide (wh.type = some Scope.self ∧ wh.type_id = some id))

/-- The filter `wh => wh.type === 'team' && wh.type_id === parseInt(id)`. -/
def teamHoursFor (id : Nat) (l : List WhEntry) : List WhEntry :=
  l.filter (fun wh => decide (wh.type = some Scope.team ∧ wh.type_id = some id))

/-- The filter `wh => wh.type === 'org' && wh.type_id === parseInt(id)`. -/
def orgHoursFor (id : Nat) (l : List WhEntry) : List WhEntry :=
  l.filter (fun wh => decide (wh.type = some Scope.org ∧ wh.type_id = some id))

/-- Embedding of `bigQueryService.getWorkingHoursConfig(userId, orgId)`:
priority self, then team, then org, then the default. Note that the
source compares the `team` rows' `type_id` against `userId` (the
function receives no team id at all). -/
def getWorkingHoursConfig (userId orgId : Nat) (workingHours : List WhEntry) :
    String × List WhEntry :=
  let selfHours := selfHoursFor userId workingHours
  let teamHours := teamHoursFor userId workingHours
  let orgHours := orgHoursFor orgId workingHours
  if selfHours.length > 0 then ("self", selfHours)
  else if teamHours.length > 0 then ("team", teamHours)
  else if orgHours.length > 0 then ("org", orgHours)
  else ("default", defaultWorkingHours)

/-- Embedding of the per-mapping body of `getAllWorkingHoursConfig`
(the loop over `userMappings`): self rows matched by `user_id`, team rows
by `team_id`, org rows by `org_id`, otherwise the default. -/
def resolveForMapping (allWorkingHours : List WhEntry) (m : UserMapping) :
    String × List WhEntry :=
  let selfHours := selfHoursFor m.user_id allWorkingHours
  if selfHours.length > 0 then ("self", selfHours)
  else
    let teamHours := teamHoursFor m.team_id allWorkingHours
    if teamHours.length > 0 then ("team", teamHours)
    else
      let orgHours := orgHoursFor m.org_id allWorkingHours
      if orgHours.length > 0 then ("org", orgHours)
      else ("default", defaultWorkingHours)

/-- Embedding of `getAllWorkingHoursConfig`: walk the user mappings in
order, skipping any `user_id` already processed, and resolve each
remaining mapping with the priority chain. -/
def getAllWorkingHoursConfig (userMappings : List UserMapping)
    (allWorkingHours : List WhEntry) : List (UserMapping × String × List WhEntry) :=
  (userMappings.foldl
    (fun (st : List Nat × List (UserMapping × String × List WhEntry)) m =>
      if m.user_id ∈ st.1 then st
      else (m.user_id :: st.1, st.2 ++ [(m, resolveForMapping allWorkingHours m)]))
    ([], [])).2

/-- A team-scope schedule row for team 9. -/
def teamEntry9 : WhEntry :=
  { type := some Scope.team, type_id := some 9, week_day := "monday",
    start_time := "10:00:00", end_time := "12:00:00" }

/-- The user binding (user 14024, org 2, team 9). -/
def mapping14024 : UserMapping := { user_id := 14024, org_id := 2, team_id := 9 }

/-- C3: with no self rows and one team row for team 9, the binding
(user 14024, org 2, team 9) resolves to that team row through
`getAllWorkingHoursConfig`, but `getWorkingHoursConfig` (which matches
team rows against the user id) misses it and falls through to the
built-in default. -/
theorem c3_team_scope_matched_by_user_id :
    getAllWorkingHoursConfig [mapping14024] [teamEntry9] =
        [(mapping14024, ("team", [teamEntry9]))] ∧
      resolveForMapping [teamEntry9] mapping14024 = ("team", [teamEntry9]) ∧
      getWorkingHoursConfig 14024 2 [teamEntry9] = ("default", defaultWorkingHours) := by
  refine ⟨rfl, rfl, rfl⟩

/-- C6: when a principal has self-scope rows, both resolvers are a
function of those rows alone: any two row sets that agree on the
principal's self-scope rows (in particular, sets differing only in team
or org rows) resolve identically, with provenance tag `self`. -/
theorem c6_self_priority_noninterference (m : UserMapping) (l1 l2 : List WhEntry)
    (hf : selfHoursFor m.user_id l1 = selfHoursFor m.user_id l2)
    (hne : selfHoursFor m.user_id l1 ≠ []) :
    getWorkingHoursConfig m.user_id m.org_id l1 = getWorkingHoursConfig m.user_id m.org_id l2 ∧
      (getWorkingHoursConfig m.user_id m.org_id l1).1 = "self" ∧
      resolveForMapping l1 m = resolveForMapping l2 m ∧
      (resolveForMapping l1 m).1 = "self" := by
  have hlen : 0 < (selfHoursFor m.user_id l1).length := List.length_pos.mpr hne
  refine ⟨?_, ?_, ?_, ?_⟩ <;>
    simp [getWorkingHoursConfig, resolveForMapping, ← hf, hlen]

/-- A self-scope schedule row for user 1. -/
def selfEntry1 : WhEntry :=
  { type := some Scope.self, type_id := some 1, week_day := "monday",
    start_time := "10:00:00", end_time := "12:00:00" }

/-- A team-scope schedule row for team 3. -/
def teamEntry3 : WhEntry :=
  { type := some Scope.team, type_id := some 3, week_day := "monday",
    start_time := "09:00:00", end_time := "18:00:00" }

/-- Witness for C6: adding a team row for the principal's own team does
not change the resolution of user 1 (org 2, team 3). -/
theorem c6_self_priority_noninterference_witness :
    getWorkingHoursConfig 1 2 [selfEntry1] =
        getWorkingHoursConfig 1 2 [selfEntry1, teamEntry3] ∧
      (getWorkingHoursConfig 1 2 [selfEntry1]).1 = "self" ∧
      resolveForMapping [selfEntry1] ⟨1, 2, 3⟩ =
        resolveForMapping [selfEntry1, teamEntry3] ⟨1, 2, 3⟩ ∧
      (resolveForMapping [selfEntry1] ⟨1, 2, 3⟩).1 = "self" :=
  c6_self_priority_noninterference ⟨1, 2, 3⟩ [selfEntry1] [selfEntry1, teamEntry3]
    (by decide) (by decide)

/-! ### Conversation segmentation (response pairs and follow-ups) -/

/-- The `direction` column of a message event. -/
inductive Direction where
  | INCOMING
  | OUTGOING
  deriving DecidableEq

/-- Count of positions `i > 0` with `event[i-1] = INCOMING` and
`event[i] = OUTGOING` in an ordered direction sequence (the quantity the
spec calls response-pair completeness). -/
def adjIncomingOutgoingCount : List Direction → Nat
  | a :: b :: rest =>
    (if a = Direction.INCOMING ∧ b = Direction.OUTGOING then 1 else 0)
      + adjIncomingOutgoingCount (b :: rest)
  | _ => 0

/-- Count of adjacent `(OUTGOING, OUTGOING)` positions. -/
def adjOutgoingOutgoingCount : List Direction → Nat
  | a :: b :: rest =>
    (if a = Direction.OUTGOING ∧ b = Direction.OUTGOING then 1 else 0)
      + adjOutgoingOutgoingCount (b :: rest)
  | _ => 0

/-- The `(prev_direction, direction)` pairs produced by
`LAG(direction, 1) OVER (PARTITION BY chat_id ORDER BY message_timestamp)`
on one ordered partition (the first row, whose lag is `NULL`, yields no
pair). -/
def lagPairs (l : List Direction) : List (Direction × Direction) := l.zip l.tail

/-- Embedding of the `response_events` CTE restricted to one chat
partition: rows with `direction = 'OUTGOING'` and
`prev_direction = 'INCOMING'`, counted. -/
def sqlResponsePairCount (l : List Direction) : Nat :=
  ((lagPairs l).filter
    (fun p => decide (p.1 = Direction.INCOMING ∧ p.2 = Direction.OUTGOING))).length

/-- Embedding of the `COUNTIF(direction = 'OUTGOING' AND
prev_direction = 'OUTGOING')` follow-up count of the lag-based merge
queries, on one ordered partition. -/
def followUpCountLag (l : List Direction) : Nat :=
  ((lagPairs l).filter
    (fun p => decide (p.1 = Direction.OUTGOING ∧ p.2 = Direction.OUTGOING))).length

/-- Embedding of the `number_of_follow_ups` emitted by the generated
working-hours merge query in `generateMergeQueryWithWorkingHours`:
`SUM(CASE WHEN direction = 'OUTGOING' THEN 1 ELSE 0 END)`. -/
def numberOfFollowUpsSimplified (l : List Direction) : Nat :=
  (l.filter (fun d => decide (d = Direction.OUTGOING))).length

/-- The inner `k`-loop of `calculateResponseTimes`: is there an OUTGOING
message strictly between the candidate INCOMING and the current message. -/
def hasOutgoingBetween (between : List Direction) : Bool :=
  between.any (fun d => decide (d = Direction.OUTGOING))

/-- The backward `j`-loop of `calculateResponseTimes`: walk the earlier
messages from the latest one down; on an INCOMING with no OUTGOING in
between, a response pair is recorded and the loop breaks; otherwise the
loop keeps descending with the candidate added to the in-between slice. -/
def jsFindIncoming : List Direction → List Direction → Bool
  | [], _ => false
  | prevMsg :: older, between =>
    if prevMsg = Direction.INCOMING then
      if hasOutgoingBetween between then jsFindIncoming older (prevMsg :: between)
      else true
    else jsFindIncoming older (prevMsg :: between)

/-- The outer `i`-loop of `calculateResponseTimes`: for each OUTGOING
message, one response pair is recorded when the backward scan over the
earlier messages (kept latest-first in `revBefore`) succeeds. -/
def jsResponsePairCountAux : List Direction → List Direction → Nat
  | _, [] => 0
  | revBefore, d :: rest =>
    (if d = Direction.OUTGOING ∧ jsFindIncoming revBefore [] = true then 1 else 0)
      + jsResponsePairCountAux (d :: revBefore) rest

/-- Number of response pairs the JavaScript backward scan records for an
ordered direction sequence. -/
def jsResponsePairCount (l : List Direction) : Nat := jsResponsePairCountAux [] l

theorem jsFindIncoming_eq_false_of_outgoing_mem (older : List Direction) :
    ∀ between : List Direction, Direction.OUTGOING ∈ between →
      jsFindIncoming older between = false := by
  induction older with
  | nil => intro between _; rfl
  | cons prevMsg older ih =>
    intro between hmem
    have hbetween : hasOutgoingBetween between = true := by
      simp only [hasOutgoingBetween, List.any_eq_true]
      exact ⟨Direction.OUTGOING, hmem, by simp⟩
    by_cases hp : prevMsg = Direction.INCOMING
    · simp only [jsFindIncoming, if_pos hp, hbetween, if_true]
      exact ih (prevMsg :: between) (List.mem_cons_of_mem _ hmem)
    · simp only [jsFindIncoming, if_neg hp]
      exact ih (prevMsg :: between) (List.mem_cons_of_mem _ hmem)

theorem jsFindIncoming_nil_eq (revBefore : List Direction) :
    jsFindIncoming revBefore [] = decide (revBefore.head? = some Direction.INCOMING) := by
  cases revBefore with
  | nil => rfl
  | cons d older =>
    by_cases hd : d = Direction.INCOMING
    · subst hd; rfl
    · have hd2 : d = Direction.OUTGOING := by cases d <;> simp_all
      subst hd2
      simp only [jsFindIncoming, reduceCtorEq, if_false, List.head?_cons]
      rw [jsFindIncoming_eq_false_of_outgoing_mem _ _ (List.mem_singleton_self _)]
      simp

/-- Adjacency count of a sequence extended on the left by an optional
previous direction; the bridge between the lag view and the scan view. -/
def adjWithPrev : Option Direction → List Direction → Nat
  | _, [] => 0
  | prev, d :: rest =>
    (if prev = some Direction.INCOMING ∧ d = Direction.OUTGOING then 1 else 0)
      + adjWithPrev (some d) rest

theorem jsResponsePairCountAux_eq_adjWithPrev (l : List Direction) :
    ∀ revBefore : List Direction,
      jsResponsePairCountAux revBefore l = adjWithPrev revBefore.head? l := by
  induction l with
  | nil => intro revBefore; rfl
  | cons d rest ih =>
    intro revBefore
    simp only [jsResponsePairCountAux, adjWithPrev, jsFindIncoming_nil_eq, ih (d :: revBefore),
      List.head?_cons]
    congr 1
    by_cases hp : revBefore.head? = some Direction.INCOMING <;> simp [hp, And.comm]

theorem adjWithPrev_some_eq (l : List Direction) :
    ∀ a : Direction, adjWithPrev (some a) l = adjIncomingOutgoingCount (a :: l) := by
  induction l with
  | nil => intro a; rfl
  | cons b rest ih =>
    intro a
    simp only [adjWithPrev, adjIncomingOutgoingCount, ih b, Option.some.injEq]

theorem sqlResponsePairCount_eq_adj (l : List Direction) :
    sqlResponsePairCount l = adjIncomingOutgoingCount l := by
  induction l with
  | nil => rfl
  | cons a rest ih =>
    cases rest with
    | nil => rfl
    | cons b rest2 =>
      have hstep : sqlResponsePairCount (a :: b :: rest2) =
          (if a = Direction.INCOMING ∧ b = Direction.OUTGOING then 1 else 0)
            + sqlResponsePairCount (b :: rest2) := by
        simp only [sqlResponsePairCount, lagPairs, List.tail_cons, List.zip_cons_cons,
          List.filter_cons]
        by_cases hab : a = Direction.INCOMING ∧ b = Direction.OUTGOING <;>
          simp [hab, Nat.add_comm]
      rw [hstep, ih, adjIncomingOutgoingCount]

/-- C5: on every ordered direction sequence, the JavaScript backward scan
of `calculateResponseTimes` and the SQL lag-based `response_events`
filter both produce exactly as many response pairs as there are
positions `i > 0` with `event[i-1] = INCOMING` and `event[i] = OUTGOING`. -/
theorem c5_response_pair_completeness (l : List Direction) :
    jsResponsePairCount l = adjIncomingOutgoingCount l ∧
      sqlResponsePairCount l = adjIncomingOutgoingCount l := by
  refine ⟨?_, sqlResponsePairCount_eq_adj l⟩
  rw [jsResponsePairCount, jsResponsePairCountAux_eq_adjWithPrev]
  cases l with
  | nil => rfl
  | cons a rest => simpa [adjWithPrev] using adjWithPrev_some_eq rest a

theorem followUpCountLag_eq_adj (l : List Direction) :
    followUpCountLag l = adjOutgoingOutgoingCount l := by
  induction l with
  | nil => rfl
  | cons a rest ih =>
    cases rest with
    | nil => rfl
    | cons b rest2 =>
      have hstep : followUpCountLag (a :: b :: rest2) =
          (if a = Direction.OUTGOING ∧ b = Direction.OUTGOING then 1 else 0)
            + followUpCountLag (b :: rest2) := by
        simp only [followUpCountLag, lagPairs, List.tail_cons, List.zip_cons_cons,
          List.filter_cons]
        by_cases hab : a = Direction.OUTGOING ∧ b = Direction.OUTGOING <;>
          simp [hab, Nat.add_comm]
      rw [hstep, ih, adjOutgoingOutgoingCount]

/-- C9: the lag-based merge queries do count adjacent
`(OUTGOING, OUTGOING)` pairs, but the generated working-hours merge query
emits `SUM(CASE WHEN direction = 'OUTGOING' THEN 1 ELSE 0 END)` as
`number_of_follow_ups`: on the one-message sequence `[OUTGOING]` it
emits 1 although there is no adjacent `(OUTGOING, OUTGOING)` pair. -/
theorem c9_follow_up_count_divergence :
    (∀ l : List Direction, followUpCountLag l = adjOutgoingOutgoingCount l) ∧
      numberOfFollowUpsSimplified [Direction.OUTGOING] = 1 ∧
      adjOutgoingOutgoingCount [Direction.OUTGOING] = 0 :=
  ⟨followUpCountLag_eq_adj, rfl, rfl⟩

/-! ### Average response time aggregation -/

/-- Embedding of `AVG(CASE WHEN working_seconds > 0 THEN working_seconds
END)` from the `response_time_by_chat` CTE of
conversation_summary_merge_FIXED.sql: non-positive values become `NULL`
and are dropped from numerator and denominator; the average of an
all-`NULL` column is itself `NULL`. -/
def avgPositiveFiltered (l : List Int) : Option ℚ :=
  let nz := l.filter (fun x => decide (0 < x))
  if nz.isEmpty then none
  else some ((nz.map (fun x => (x : ℚ))).sum / (nz.length : ℚ))

/-- Embedding of one aggregation key of the FIXED merge query: map the
key's response pairs through the UDF, average the positive values, and
`COALESCE` a `NULL` average (all pairs zero, or no pairs at all) to 0. -/
def averageResponseTimeFixed (pairs : List (Nat × Nat)) (s : Schedule) : ℚ :=
  (avgPositiveFiltered
    (pairs.map (fun p => calculate_working_seconds_sql p.1 p.2 s))).getD 0

/-- Embedding of one aggregation key of conversation_summary_merge.sql
(the non-FIXED variant): a plain `AVG` of the UDF values over all of the
key's response pairs, `NULL` when the key has no pairs. -/
def averageResponseTimePlain (pairs : List (Nat × Nat)) (s : Schedule) : Option ℚ :=
  let l := pairs.map (fun p => calculate_working_seconds_sql p.1 p.2 s)
  if l.isEmpty then none
  else some ((l.map (fun x => (x : ℚ))).sum / (l.length : ℚ))

/-- The mean the claim describes: drop the zero-valued results from both
numerator and denominator, and emit 0 when no non-zero value remains. -/
def zeroExcludedMean (l : List Int) : ℚ :=
  let nz := l.filter (fun x => decide (x ≠ 0))
  if nz.isEmpty then 0
  else (nz.map (fun x => (x : ℚ))).sum / (nz.length : ℚ)

theorem filter_pos_eq_filter_ne_zero (l : List Int) (h : ∀ x ∈ l, (0 : Int) ≤ x) :
    l.filter (fun x => decide (0 < x)) = l.filter (fun x => decide (x ≠ 0)) := by
  induction l with
  | nil => rfl
  | cons a rest ih =>
    have ha : (0 : Int) ≤ a := h a (List.mem_cons_self a rest)
    have hrest := ih (fun x hx => h x (List.mem_cons_of_mem a hx))
    by_cases h0 : a = 0
    · subst h0; simp [List.filter_cons, hrest]
    · have hpos : (0 : Int) < a := lt_of_le_of_ne ha (Ne.symm h0)
      simp [List.filter_cons, hpos, h0, hrest]

theorem avg_getD_eq (nz : List Int) :
    (if nz.isEmpty then (none : Option ℚ)
      else some ((nz.map (fun x => (x : ℚ))).sum / (nz.length : ℚ))).getD 0 =
      if nz.isEmpty then (0 : ℚ)
      else (nz.map (fun x => (x : ℚ))).sum / (nz.length : ℚ) := by
  cases nz <;> simp

/-- Amended C4: for every list of response pairs and every schedule, the
average of the FIXED merge query is exactly the zero-excluding mean of
the UDF values, with 0 when no non-zero value exists. -/
theorem c4_fixed_average_is_zero_excluded_mean (pairs : List (Nat × Nat)) (s : Schedule) :
    averageResponseTimeFixed pairs s =
      zeroExcludedMean (pairs.map (fun p => calculate_working_seconds_sql p.1 p.2 s)) := by
  have hnonneg : ∀ x ∈ pairs.map (fun p => calculate_working_seconds_sql p.1 p.2 s),
      (0 : Int) ≤ x := by
    intro x hx
    rcases List.mem_map.mp hx with ⟨p, _, rfl⟩
    exact calculate_working_seconds_sql_nonneg s p.1 p.2
  unfold averageResponseTimeFixed avgPositiveFiltered zeroExcludedMean
  rw [filter_pos_eq_filter_ne_zero _ hnonneg]
  exact avg_getD_eq _

/-- The response pairs Monday 10:00-11:00 (inside working hours) and
Monday 19:00-20:00 (entirely outside them). -/
def c4pairs : List (Nat × Nat) := [(381600, 385200), (414000, 417600)]

/-- Counterexample to C4 as stated: on the pair list `c4pairs` under the
Mon-Fri schedule, the UDF values are 3600 and 0; the average emitted by
conversation_summary_merge.sql includes the zero and is 1800, not the
zero-excluding mean 3600. -/
theorem c4_plain_average_includes_zeros :
    averageResponseTimePlain c4pairs monFriSchedule = some 1800 ∧
      zeroExcludedMean
        (c4pairs.map (fun p => calculate_working_seconds_sql p.1 p.2 monFriSchedule)) = 3600 ∧
      (1800 : ℚ) ≠ 3600 := by
  refine ⟨?_, ?_, by norm_num⟩
  · show some (((3600 : ℚ) + (0 + 0)) / 2) = some 1800
    norm_num
  · show ((3600 : ℚ) + 0) / 1 = 3600
    norm_num

end ConvSummary
